import Mathlib

/-!
Shallow embedding of the openarms-backend audio pipeline.

Source files embedded:
* `src/process_stems.py` — `split_audio`: the three-tier separation cascade
  (Demucs model path, pydub filter fallback, raw duplication), the
  normalization of the decoded waveform, and the SNR quality check.
* `src/app.py` — the `/api/stems` endpoint logic that collects the four stem
  files produced by `split_audio`.
* `src/analyze_tempo.py` — `analyze_tempo`: tempo/key analysis with a
  catch-all error handler.

External effects (the Demucs model, soundfile/pydub I/O, librosa calls) are
modelled as oracle outcomes recorded in an environment; the control flow of
the Python functions — which tier runs, what is written where, what is
returned — is embedded exactly.
-/

namespace OpenArms

/-- File contents, abstractly: a byte string. -/
abbrev Bytes := List Nat

/-- The four stem names fixed by `process_stems.py`
(`stem_names` is drums, bass, other, vocals; the fallback loops iterate
over vocals, drums, bass, other). -/
inductive StemName
  | vocals
  | drums
  | bass
  | other
deriving DecidableEq

/-- The output directory: contents of each `<stem>.wav` file, `none` when the
file does not exist.  `split_audio` clears the directory on entry
(`shutil.rmtree` + `os.makedirs`), so each run starts from `emptyDir`. -/
abbrev Dir := StemName → Option Bytes

def emptyDir : Dir := fun _ => none

/-- A single file write (`sf.write`, `export`, or `shutil.copy`), overwriting
any existing file of that name. -/
def writeFile (d : Dir) (s : StemName) (b : Bytes) : Dir :=
  fun t => if t = s then some b else d t

/-- Apply a sequence of writes in order. -/
def applyWrites (d : Dir) (ws : List (StemName × Bytes)) : Dir :=
  ws.foldl (fun d w => writeFile d w.1 w.2) d

/-- Outcome of the tier-1 Demucs path (`process_stems.py` lines 26–117).

* `ok stems verifyRaised areDifferent`: decode, resample, inference and the
  saving loop all completed, so `separation_done = True` was reached
  (line 90) and all four stem files hold `stems`.  The subsequent quality
  verification (lines 92–113) may itself have raised (`verifyRaised`, caught
  by the same `except` on line 115 with `separation_done` already set) and
  computed an `are_different` flag (`areDifferent`); both are recorded so we
  can state that they do not influence the result.
* `fail writesBefore`: an exception escaped before line 90 — from the
  imports, decode, resample, inference, or mid-way through the saving loop —
  after the listed writes had already been made.  The exception is caught on
  line 115. -/
inductive Tier1Outcome
  | ok (stems : StemName → Bytes) (verifyRaised : Bool) (areDifferent : Bool)
  | fail (writesBefore : List (StemName × Bytes))

/-- `True` exactly when tier 1 reached `separation_done = True`
(the quality-verifier fields are irrelevant). -/
def Tier1Outcome.succeeded : Tier1Outcome → Bool
  | .ok _ _ _ => true
  | .fail _ => false

/-- Outcome of the tier-2 pydub filter fallback (`process_stems.py`
lines 122–145).

* `ok v dr b o`: `AudioSegment.from_file` and all four filtered exports
  succeeded, writing vocals/drums/bass/other contents `v`, `dr`, `b`, `o`
  in that order; then `fallback_used = True`.
* `fail writesBefore`: some step raised after the listed exports had been
  written; caught on line 146, leading to tier 3. -/
inductive Tier2Outcome
  | ok (vocalsB drumsB bassB otherB : Bytes)
  | fail (writesBefore : List (StemName × Bytes))

/-- The writes tier 2 performs when it succeeds, in source order
(vocals, drums, bass, other — lines 129–142). -/
def tier2Writes (v dr b o : Bytes) : List (StemName × Bytes) :=
  [(.vocals, v), (.drums, dr), (.bass, b), (.other, o)]

/-- The per-invocation environment: the oracle outcomes of the external
effects, and the raw bytes of the input file (used by the tier-3
`shutil.copy`).  `copyOk s` tells whether the tier-3 copy into slot `s`
succeeds; a failed copy is caught by the per-stem `try/except`
(lines 151–154). -/
structure Env where
  tier1 : Tier1Outcome
  tier2 : Tier2Outcome
  copyOk : StemName → Bool
  raw : Bytes

/-- The tier-1 saving loop (lines 84–89): writes the four stems in the order
drums, bass, other, vocals. -/
def writeTier1 (d : Dir) (stems : StemName → Bytes) : Dir :=
  [StemName.drums, StemName.bass, StemName.other, StemName.vocals].foldl
    (fun d s => writeFile d s (stems s)) d

/-- The tier-3 duplication loop (lines 150–154): for each stem in
vocals, drums, bass, other in that order, try `shutil.copy(input, stem)`;
a failing copy is caught and logged, leaving that slot untouched. -/
def tier3Copy (d : Dir) (copyOk : StemName → Bool) (raw : Bytes) : Dir :=
  [StemName.vocals, StemName.drums, StemName.bass, StemName.other].foldl
    (fun d s => if copyOk s then writeFile d s raw else d) d

/-- `split_audio` (`process_stems.py` lines 7–158), as a function from the
oracle environment to the final output-directory contents and the boolean
return value `separation_done and not fallback_used`.

Control flow mirrors the source: the Demucs path runs inside one broad
`try/except`; the filter fallback runs only `if not separation_done`
(line 120) and sets `fallback_used = True` whether its own body succeeds
or falls through to the duplication loop; the duplication loop catches
each copy error individually. -/
def split_audio (env : Env) : Dir × Bool :=
  match env.tier1 with
  | .ok stems _ _ => (writeTier1 emptyDir stems, true)
  | .fail w1 =>
    let d1 := applyWrites emptyDir w1
    match env.tier2 with
    | .ok v dr b o => (applyWrites d1 (tier2Writes v dr b o), false)
    | .fail w2 =>
      let d2 := applyWrites d1 w2
      (tier3Copy d2 env.copyOk env.raw, false)

/-- `app.py` lines 73–84: true when all four `<stem>.wav` files exist. -/
def allPresent (d : Dir) : Bool :=
  (d .vocals).isSome && (d .drums).isSome && (d .bass).isSome && (d .other).isSome

/-- The `/api/stems` endpoint core (`app.py` lines 66–89): run `split_audio`,
read every stem file that exists, and fail with a single error if any of the
four is missing (`raise Exception("Missing stems: ...")`, answered as one
HTTP 500).  Zero-length files pass the `os.path.exists` check and are
base64-encoded as empty content. -/
def stemsEndpoint (env : Env) : Except String (StemName → Bytes) :=
  let d := (split_audio env).1
  if allPresent d then .ok (fun s => (d s).getD []) else .error "Missing stems"

/-- Extract the content of one stem from an endpoint result (`none` when the
request failed). -/
def getStem (r : Except String (StemName → Bytes)) (s : StemName) : Option Bytes :=
  match r with
  | .ok f => some (f s)
  | .error _ => none

/-- Whether the endpoint returned a stem set rather than an error. -/
def exceptIsOk : Except String (StemName → Bytes) → Bool
  | .ok _ => true
  | .error _ => false

/-! ## Waveform normalization (`process_stems.py` lines 43–71)

A waveform is a list of channels, each a list of rational samples
(floats modelled as exact rationals; `librosa.resample` is an opaque
per-channel capability passed in as a function). -/

/-- Length of the longest channel (`max(len(c) for c in resampled_channels)`,
line 59). -/
def maxLenOf (cs : List (List ℚ)) : ℕ :=
  (cs.map List.length).foldr max 0

/-- `np.pad(c, (0, max_len - len(c)))` (line 62): append trailing zeros up
to length `L`. -/
def padChannel (L : ℕ) (c : List ℚ) : List ℚ :=
  c ++ List.replicate (L - c.length) 0

/-- Lines 58–63: pad every resampled channel to the common maximum length. -/
def padToMax (cs : List (List ℚ)) : List (List ℚ) :=
  cs.map (padChannel (maxLenOf cs))

/-- Lines 67–71: `wav.repeat(2, 1)` duplicates a mono channel; more than two
channels are cut down to the first two (`wav[:2]`); a stereo waveform passes
through unchanged. -/
def ensureStereo (w : List (List ℚ)) : List (List ℚ) :=
  if w.length = 1 then w ++ w
  else if 2 < w.length then w.take 2
  else w

/-- Lines 48–71: if the native rate differs from the target rate of the model
(`srNe`), resample each channel independently and pad to the common maximum
length; then reconcile the channel count to stereo.  `resample` stands for
`librosa.resample(·, orig_sr=sr, target_sr=target_sr)`. -/
def normalize (resample : List ℚ → List ℚ) (srNe : Bool)
    (chans : List (List ℚ)) : List (List ℚ) :=
  ensureStereo (if srNe then padToMax (chans.map resample) else chans)

/-- Line 65 (`sr = target_sr` inside `if sr != target_sr`): the sample rate
associated with the normalized waveform. -/
def outputSampleRate (native target : ℕ) : ℕ :=
  if native ≠ target then target else native

/-! ## Quality verification: SNR (`process_stems.py` lines 100–103) -/

/-- `np.mean(xs**2)`: mean of squares; the empty mean degenerates to `0`
under rational division by zero. -/
def meanSq (xs : List ℚ) : ℚ :=
  (xs.map (fun x => x * x)).sum / (xs.length : ℚ)

/-- Line 101: `diff_power = np.mean((vocals_data - drums_data)**2)`. -/
def diffPower (vocals drums : List ℚ) : ℚ :=
  meanSq (List.zipWith (fun x y => x - y) vocals drums)

/-- Line 102: `drums_power = np.mean(drums_data**2) + 1e-9`. -/
def drumsPower (drums : List ℚ) : ℚ :=
  meanSq drums + 1 / 1000000000

/-- The SNR value: a finite decibel figure or positive infinity. -/
inductive Snr
  | posInf
  | db (x : ℚ)
deriving DecidableEq

/-- Line 103:
`snr` is `10 * math.log10(drums_power / diff_power)` when `diff_power > 0`
and positive infinity otherwise.
`log10` stands for the opaque `math.log10` capability; it is only ever
applied when the guard `diff_power > 0` holds. -/
def snr (log10 : ℚ → ℚ) (vocals drums : List ℚ) : Snr :=
  if 0 < diffPower vocals drums then
    .db (10 * log10 (drumsPower drums / diffPower vocals drums))
  else .posInf

/-! ## Tempo analysis (`src/analyze_tempo.py`) -/

/-- The values produced by the librosa calls inside the `try` block of `analyze_tempo`: detected tempo, beat times in seconds, the 12 mean chroma values,
the major/minor profile correlations, the duration, and the tempogram
standard deviation. -/
structure LibrosaData where
  tempo : ℚ
  beatTimes : List ℚ
  chromaVals : List ℚ
  majorCorr : ℚ
  minorCorr : ℚ
  duration : ℚ
  tempogramStd : ℚ

/-- A natural pitch name and its sharpened variant. -/
def withSharp (s : String) : List String :=
  [s, s ++ "#"]

/-- The twelve pitch-class names, in the order of `analyze_tempo.py`
line 40 (naturals C, D, F, G, A carry a sharp; E and B do not). -/
def keys : List String :=
  withSharp "C" ++ withSharp "D" ++ ["E", "F"] ++ ["F" ++ "#"]
    ++ withSharp "G" ++ withSharp "A" ++ ["B"]

/-- Helper for `argmax`: scan the tail keeping the first index of the
maximum seen so far (`np.argmax` returns the first occurrence). -/
def argmaxGo (i bi : ℕ) (bv : ℚ) : List ℚ → ℕ
  | [] => bi
  | x :: xs => if bv < x then argmaxGo (i + 1) i x xs else argmaxGo (i + 1) bi bv xs

/-- `np.argmax(chroma_vals)` (line 39): index of the first maximum. -/
def argmax : List ℚ → ℕ
  | [] => 0
  | x :: xs => argmaxGo 1 0 x xs

/-- The dictionary `analyze_tempo` returns: the success shape with all
analysis fields (lines 62–71), or the failure shape with an error string
(lines 82–85). -/
inductive TempoResult
  | ok (bpm : ℚ) (key : String) (scale : String) (duration : ℚ)
      (beat_count : ℕ) (beat_times : List ℚ) (tempo_confidence : ℚ)
  | err (msg : String)

/-- The `success` field of the returned dictionary. -/
def TempoResult.success : TempoResult → Bool
  | .ok _ _ _ _ _ _ _ => true
  | .err _ => false

/-- The `error` field (`none` on the success shape). -/
def TempoResult.errMsg : TempoResult → Option String
  | .ok _ _ _ _ _ _ _ => none
  | .err e => some e

/-- The `beat_times` field (`none` on the failure shape). -/
def TempoResult.beatTimesField : TempoResult → Option (List ℚ)
  | .ok _ _ _ _ _ bt _ => some bt
  | .err _ => none

/-- The `beat_count` field (`none` on the failure shape). -/
def TempoResult.beatCountField : TempoResult → Option ℕ
  | .ok _ _ _ _ bc _ _ => some bc
  | .err _ => none

/-- `analyze_tempo` (`analyze_tempo.py` lines 7–85).  The librosa calls are
an oracle: `.error e` means one of them raised with message `e`, in which
case the catch-all `except` returns `{"success": False, "error": str(e)}`.
On `.ok`, the result dictionary is built exactly as in lines 62–71:
`bpm = round(tempo, 2)`, `key = keys[np.argmax(chroma_vals)]`,
`scale` from the profile-correlation comparison (line 56),
`duration = round(duration, 2)`, `beat_count = len(beat_times)`,
`beat_times = beat_times[:20]`, `tempo_confidence = float(np.std(tempogram))`.
`round2` stands for the Python builtin `round(·, 2)`. -/
def analyze_tempo (round2 : ℚ → ℚ) (data : Except String LibrosaData) :
    TempoResult :=
  match data with
  | .error e => .err e
  | .ok d =>
    .ok (round2 d.tempo)
      (keys.getD (argmax d.chromaVals) "C")
      (if d.minorCorr < d.majorCorr then "Major" else "Minor")
      (round2 d.duration)
      d.beatTimes.length
      (d.beatTimes.take 20)
      d.tempogramStd

/-! ## Helper lemmas for the cascade -/

/-- Reading any slot of the tier-3 duplication loop: the slot holds the raw
bytes when its own copy succeeded, and is untouched otherwise (successful
copies into other slots never affect it). -/
lemma tier3Copy_apply (d : Dir) (cp : StemName → Bool) (raw : Bytes)
    (s : StemName) :
    tier3Copy d cp raw s = if cp s = true then some raw else d s := by
  simp only [tier3Copy, List.foldl_cons, List.foldl_nil]
  cases s <;> by_cases h1 : cp .vocals = true <;> by_cases h2 : cp .drums = true <;>
    by_cases h3 : cp .bass = true <;> by_cases h4 : cp .other = true <;>
    simp [h1, h2, h3, h4, writeFile]

/-! ## Concrete environments used by counterexamples and witnesses -/

/-- Copy succeeds for every stem except vocals. -/
def copyOkExceptVocals : StemName → Bool
  | .vocals => false
  | _ => true

/-- A run where tiers 1 and 2 fail outright and the tier-3 copy into the
vocals slot fails with an I/O error (the other three copies succeed). -/
def envCopyFail : Env :=
  ⟨.fail [], .fail [], copyOkExceptVocals, [7]⟩

/-- A run on an unreadable (or empty) input: `sf.read` raises in tier 1 and
`AudioSegment.from_file` raises in tier 2, both before any write; tier-3
copies succeed since `shutil.copy` never decodes the bytes. -/
def envUnreadable : Env :=
  ⟨.fail [], .fail [], fun _ => true, [3, 1]⟩

/-- A run on an empty uploaded file: both decoding tiers fail, tier 3
duplicates the zero-length raw bytes into all four slots. -/
def envEmptyInput : Env :=
  ⟨.fail [], .fail [], fun _ => true, []⟩

/-- A run where tier 1 fails after writing a partial drums stem and tier 2
then succeeds. -/
def envTier2 : Env :=
  ⟨.fail [(.drums, [9])], .ok [1] [2] [3] [4], fun _ => true, [5]⟩

/-- A run where tier 1 succeeds with every stem file holding `[1]`. -/
def envTier1Ok : Env :=
  ⟨.ok (fun _ => [1]) false true, .fail [], fun _ => true, []⟩

/-! ## Claims about the fallback cascade -/

/-- Claim C2: for every invocation of `split_audio` that returns normally,
its boolean return value is `True` exactly when tier 1 — the Demucs path up
to and including writing all four stem files, i.e. reaching
`separation_done = True` — succeeded, independent of the quality-verifier
fields recorded in the tier-1 outcome. -/
theorem return_value_iff_tier1 (env : Env) :
    (split_audio env).2 = env.tier1.succeeded := by
  obtain ⟨t1, t2, cp, raw⟩ := env
  cases t1 <;> cases t2 <;> rfl

/-- Claim C8: the appears-different quality flag is purely advisory.  For a
run in which tier 1 succeeds, the resulting files and the `True` return
value are identical whatever the verifier computed (`areDifferent` flag) and
even if the verification step itself raised (`verifyRaised`); neither
triggers a fallback tier nor downgrades the result. -/
theorem quality_flag_advisory (stems : StemName → Bytes) (vr ad vr2 ad2 : Bool)
    (t2 : Tier2Outcome) (cp : StemName → Bool) (raw : Bytes) :
    split_audio ⟨.ok stems vr ad, t2, cp, raw⟩
      = split_audio ⟨.ok stems vr2 ad2, t2, cp, raw⟩ ∧
    (split_audio ⟨.ok stems vr ad, t2, cp, raw⟩).2 = true :=
  ⟨rfl, rfl⟩

/-- Claim C3: the tiers run in strict priority order, each at most once.
If tier 1 reached `separation_done`, the output is exactly the four
tier-1 stems and the fallback is never invoked; if tier 1 failed and tier 2
succeeded, every slot reads exactly as after running tier 2 alone on the
clean directory (partial tier-1 writes are all overwritten); if both failed
and the tier-3 copies succeed, every slot holds a copy of the raw input. -/
theorem cascade_strict_order (env : Env) :
    (∀ stems vr ad, env.tier1 = .ok stems vr ad →
      (split_audio env).2 = true ∧
      ∀ s, (split_audio env).1 s = some (stems s)) ∧
    (∀ w1 v dr b o, env.tier1 = .fail w1 → env.tier2 = .ok v dr b o →
      (split_audio env).2 = false ∧
      ∀ s, (split_audio env).1 s
        = applyWrites emptyDir (tier2Writes v dr b o) s) ∧
    (∀ w1 w2, env.tier1 = .fail w1 → env.tier2 = .fail w2 →
      (∀ s, env.copyOk s = true) →
      (split_audio env).2 = false ∧
      ∀ s, (split_audio env).1 s = some env.raw) := by
  obtain ⟨t1, t2, cp, raw⟩ := env
  refine ⟨?_, ?_, ?_⟩
  · rintro stems vr ad rfl
    exact ⟨rfl, fun s => by cases s <;> rfl⟩
  · rintro w1 v dr b o rfl rfl
    exact ⟨rfl, fun s => by cases s <;> rfl⟩
  · rintro w1 w2 rfl rfl hcp
    refine ⟨rfl, fun s => ?_⟩
    show tier3Copy _ cp raw s = some raw
    rw [tier3Copy_apply, if_pos (hcp s)]

/-- Witness for C3: in the concrete run `envTier2` (tier 1 failed after a
partial drums write, tier 2 succeeded), the return value is `False` and the
vocals slot reads exactly as after tier 2 alone. -/
theorem cascade_strict_order_witness :
    (split_audio envTier2).2 = false ∧
    (split_audio envTier2).1 .vocals
      = applyWrites emptyDir (tier2Writes [1] [2] [3] [4]) .vocals :=
  ⟨((cascade_strict_order envTier2).2.1 [(.drums, [9])] [1] [2] [3] [4]
      rfl rfl).1,
   ((cascade_strict_order envTier2).2.1 [(.drums, [9])] [1] [2] [3] [4]
      rfl rfl).2 .vocals⟩

/-- Claim C1, counterexample: in `envCopyFail` the tier-3 copy into the
vocals slot fails with an I/O error, yet `split_audio` returns normally
(the per-stem `try/except` of lines 151–154 swallows the error): the run
produces the value `False` — it does not fail — and the directory is left
without a vocals stem, so no complete StemSet exists.  This contradicts the
claim that a tier-3 copy failure is fatal to the whole invocation. -/
theorem tier3_copy_failure_not_fatal_cex :
    (split_audio envCopyFail).2 = false ∧
    (split_audio envCopyFail).1 .drums = some [7] ∧
    (split_audio envCopyFail).1 .vocals = none :=
  ⟨rfl, rfl, rfl⟩

/-- Claim C1, amended: when tier 3 is reached, each of the four copy errors
is caught and logged individually; `split_audio` still returns normally with
`False`, and a complete StemSet is only guaranteed for the slots whose copy
succeeded — a slot whose copy failed may be missing from the output
directory. -/
theorem tier3_copy_errors_caught (env : Env) (w1 w2 : List (StemName × Bytes))
    (h1 : env.tier1 = .fail w1) (h2 : env.tier2 = .fail w2) :
    (split_audio env).2 = false ∧
    ∀ s, env.copyOk s = true → (split_audio env).1 s = some env.raw := by
  obtain ⟨t1, t2, cp, raw⟩ := env
  cases h1
  cases h2
  refine ⟨rfl, fun s hs => ?_⟩
  show tier3Copy _ cp raw s = some raw
  rw [tier3Copy_apply, if_pos hs]

/-- Witness for the amended C1 at the concrete run `envCopyFail`: the
invocation returns `False` normally and the drums slot (whose copy
succeeded) holds the raw bytes. -/
theorem tier3_copy_errors_caught_witness :
    (split_audio envCopyFail).2 = false ∧
    (split_audio envCopyFail).1 .drums = some envCopyFail.raw :=
  ⟨(tier3_copy_errors_caught envCopyFail [] [] rfl rfl).1,
   (tier3_copy_errors_caught envCopyFail [] [] rfl rfl).2 .drums rfl⟩

/-- Claim C4, counterexample: on an unreadable input (`envUnreadable`), the
decode failure in tier 1 is caught like any other tier-1 error, the fallback
cascade IS attempted, tier 3 duplicates the raw (undecodable) bytes into all
four slots, and `split_audio` returns `False` normally; the `/api/stems`
caller then receives a StemSet of four byte-identical copies, not a failure.
This contradicts the claim that decode failure is fatal with no fallback. -/
theorem decode_failure_not_fatal_cex :
    (split_audio envUnreadable).2 = false ∧
    (split_audio envUnreadable).1 .vocals = some [3, 1] ∧
    (split_audio envUnreadable).1 .drums = some [3, 1] ∧
    (split_audio envUnreadable).1 .bass = some [3, 1] ∧
    (split_audio envUnreadable).1 .other = some [3, 1] ∧
    getStem (stemsEndpoint envUnreadable) .vocals = some [3, 1] :=
  ⟨rfl, rfl, rfl, rfl, rfl, rfl⟩

/-- Claim C4, amended: an unreadable or empty input makes tier 1 fail before
any write; the exception is contained and the fallback tiers ARE attempted.
When tier 2 also fails on the undecodable input and the tier-3 copies
succeed, `split_audio` returns normally with `False` and every stem slot
holds the raw input bytes — the caller receives duplicates, not a
`DecodeError`. -/
theorem decode_failure_falls_back (env : Env)
    (h1 : env.tier1 = .fail []) (h2 : env.tier2 = .fail [])
    (hcp : ∀ s, env.copyOk s = true) :
    (split_audio env).2 = false ∧
    ∀ s, (split_audio env).1 s = some env.raw := by
  obtain ⟨t1, t2, cp, raw⟩ := env
  cases h1
  cases h2
  refine ⟨rfl, fun s => ?_⟩
  show tier3Copy _ cp raw s = some raw
  rw [tier3Copy_apply, if_pos (hcp s)]

/-- Witness for the amended C4 at the concrete run `envUnreadable`. -/
theorem decode_failure_falls_back_witness :
    (split_audio envUnreadable).2 = false ∧
    (split_audio envUnreadable).1 .bass = some envUnreadable.raw :=
  ⟨(decode_failure_falls_back envUnreadable rfl rfl (fun _ => rfl)).1,
   (decode_failure_falls_back envUnreadable rfl rfl (fun _ => rfl)).2 .bass⟩

/-- Claim C5, counterexample: for an empty uploaded file (`envEmptyInput`),
every decoding tier fails and tier 3 duplicates the zero-length raw bytes;
the endpoint check (`os.path.exists` only) passes, so the caller receives a
successful result whose vocals content has length zero — contradicting the
claim that every returned stem has nonzero-length content. -/
theorem endpoint_zero_length_cex :
    exceptIsOk (stemsEndpoint envEmptyInput) = true ∧
    getStem (stemsEndpoint envEmptyInput) .vocals = some [] :=
  ⟨rfl, rfl⟩

/-- Claim C5, amended: the `/api/stems` endpoint contract is all-or-nothing
over the four stem names but does not check content lengths: it succeeds
exactly when all four stem files exist, and on success every returned stem
is the exact content of the corresponding file (possibly zero-length); a
1–3 stem partial result is never returned — any missing stem turns the whole
response into a single failure. -/
theorem endpoint_all_or_error (env : Env) :
    (exceptIsOk (stemsEndpoint env) = true
      ↔ allPresent (split_audio env).1 = true) ∧
    (∀ f, stemsEndpoint env = .ok f →
      ∀ s, (split_audio env).1 s = some (f s)) := by
  by_cases h : allPresent (split_audio env).1 = true
  · refine ⟨by simp [stemsEndpoint, h, exceptIsOk], fun f hf s => ?_⟩
    have hf2 : (fun s => (((split_audio env).1) s).getD []) = f := by
      simpa [stemsEndpoint, h] using hf
    have hs : (((split_audio env).1) s).isSome = true := by
      have h4 := h
      simp only [allPresent, Bool.and_eq_true] at h4
      obtain ⟨⟨⟨hv, hd⟩, hb⟩, ho⟩ := h4
      cases s <;> assumption
    obtain ⟨v, hv⟩ := Option.isSome_iff_exists.mp hs
    rw [← hf2]
    show (split_audio env).1 s = some ((((split_audio env).1) s).getD [])
    rw [hv]
    rfl
  · refine ⟨by simp [stemsEndpoint, h, exceptIsOk], fun f hf s => ?_⟩
    simp [stemsEndpoint, h] at hf

/-- Witness for the amended C5 at the concrete run `envTier1Ok`: all four
stems exist, so the endpoint succeeds. -/
theorem endpoint_all_or_error_witness :
    allPresent (split_audio envTier1Ok).1 = true ∧
    exceptIsOk (stemsEndpoint envTier1Ok) = true :=
  ⟨rfl, (endpoint_all_or_error envTier1Ok).1.mpr rfl⟩

/-! ## Helper lemmas for the normalizer -/

lemma maxLenOf_cons (a : List ℚ) (t : List (List ℚ)) :
    maxLenOf (a :: t) = max a.length (maxLenOf t) := rfl

lemma length_le_maxLenOf {c : List ℚ} {cs : List (List ℚ)} (h : c ∈ cs) :
    c.length ≤ maxLenOf cs := by
  induction cs with
  | nil => cases h
  | cons a t ih =>
    rw [maxLenOf_cons]
    rcases List.mem_cons.mp h with rfl | h2
    · exact le_max_left _ _
    · exact le_trans (ih h2) (le_max_right _ _)

lemma padChannel_length {c : List ℚ} {L : ℕ} (h : c.length ≤ L) :
    (padChannel L c).length = L := by
  simp only [padChannel, List.length_append, List.length_replicate]
  omega

lemma mem_padToMax_length {x : List ℚ} {cs : List (List ℚ)}
    (h : x ∈ padToMax cs) : x.length = maxLenOf cs := by
  obtain ⟨c, hc, rfl⟩ := List.mem_map.mp h
  exact padChannel_length (length_le_maxLenOf hc)

lemma mem_of_mem_ensureStereo {w : List (List ℚ)} {c : List ℚ}
    (h : c ∈ ensureStereo w) : c ∈ w := by
  unfold ensureStereo at h
  split_ifs at h
  · exact (List.mem_append.mp h).elim id id
  · exact List.take_subset _ _ h
  · exact h

lemma ensureStereo_length {w : List (List ℚ)} (h : 1 ≤ w.length) :
    (ensureStereo w).length = 2 := by
  unfold ensureStereo
  split_ifs with h1 h2
  · simp [h1]
  · simp only [List.length_take]
    omega
  · omega

/-! ## Claim about the normalizer -/

/-- Claim C6: for every decodable input (at least one channel, all native
channels of equal length as `sf.read(..., always_2d=True)` guarantees), the
normalized waveform has exactly 2 channels of equal length; a mono input is
duplicated into two identical channels; after per-channel resampling each
channel is kept whole and extended by trailing zeros up to the maximum
channel length (never truncated); and the associated sample rate is the
target rate of the model. -/
theorem normalize_stereo_equal_length (resample : List ℚ → List ℚ)
    (srNe : Bool) (chans : List (List ℚ)) (native target : ℕ)
    (hne : 1 ≤ chans.length)
    (heq : ∀ c1 ∈ chans, ∀ c2 ∈ chans, c1.length = c2.length) :
    (normalize resample srNe chans).length = 2 ∧
    ((normalize resample srNe chans)[0]?).map List.length
      = ((normalize resample srNe chans)[1]?).map List.length ∧
    (chans.length = 1 →
      (normalize resample srNe chans)[0]?
        = (normalize resample srNe chans)[1]?) ∧
    (∀ i, ∀ hi : i < (chans.map resample).length,
      ∃ pad, (padToMax (chans.map resample))[i]?
          = some ((chans.map resample).get ⟨i, hi⟩ ++ pad) ∧
        (∀ x ∈ pad, x = 0) ∧
        ((chans.map resample).get ⟨i, hi⟩ ++ pad).length
          = maxLenOf (chans.map resample)) ∧
    outputSampleRate native target = target := by
  have hw1 : 1 ≤ (if srNe then padToMax (chans.map resample) else chans).length := by
    cases srNe <;> simp [padToMax, hne]
  have hwP : ∀ c1 ∈ (if srNe then padToMax (chans.map resample) else chans),
      ∀ c2 ∈ (if srNe then padToMax (chans.map resample) else chans),
      c1.length = c2.length := by
    cases srNe
    · simpa using heq
    · intro c1 h1 c2 h2
      simp only [if_pos] at h1 h2
      rw [mem_padToMax_length h1, mem_padToMax_length h2]
  have hlen : (normalize resample srNe chans).length = 2 :=
    ensureStereo_length hw1
  refine ⟨hlen, ?_, ?_, ?_, ?_⟩
  · obtain ⟨a, b, hab⟩ := List.length_eq_two.mp hlen
    have ha : a ∈ normalize resample srNe chans := by rw [hab]; simp
    have hb : b ∈ normalize resample srNe chans := by rw [hab]; simp
    have : a.length = b.length :=
      hwP a (mem_of_mem_ensureStereo ha) b (mem_of_mem_ensureStereo hb)
    rw [hab]
    simp [this]
  · intro hm
    obtain ⟨c, rfl⟩ := List.length_eq_one.mp hm
    cases srNe
    · simp [normalize, ensureStereo]
    · simp [normalize, ensureStereo, padToMax, padChannel, maxLenOf]
  · intro i hi
    refine ⟨List.replicate
      (maxLenOf (chans.map resample)
        - ((chans.map resample).get ⟨i, hi⟩).length) 0, ?_, ?_, ?_⟩
    · rw [padToMax, List.getElem?_map, List.getElem?_eq_getElem hi]
      rfl
    · intro x hx
      exact List.eq_of_mem_replicate hx
    · exact padChannel_length (length_le_maxLenOf (List.get_mem _ _ _))
  · unfold outputSampleRate
    split_ifs with h
    · rfl
    · omega

/-- A concrete resampler for the C6 witness: it maps the two equal-length
input channels to channels of different lengths, exercising the padding. -/
def resampleW : List ℚ → List ℚ :=
  fun c => if c.length = 2 then [5] else [6, 7]

/-- Concrete two-channel input for the C6 witness. -/
def chansW : List (List ℚ) := [[1, 2], [3, 4]]

/-- Witness for C6: at the concrete stereo input `chansW` with resampling
needed, the hypotheses hold and the normalized output has exactly two
channels. -/
theorem normalize_stereo_equal_length_witness :
    1 ≤ chansW.length ∧ (normalize resampleW true chansW).length = 2 :=
  ⟨by decide,
   (normalize_stereo_equal_length resampleW true chansW 44100 44100
      (by decide) (by decide)).1⟩

/-! ## Helper lemmas for the SNR computation -/

lemma zipWith_sub_self (v : List ℚ) :
    List.zipWith (fun x y => x - y) v v = List.replicate v.length 0 := by
  induction v with
  | nil => rfl
  | cons a t ih => simp [List.replicate_succ, ih]

lemma meanSq_replicate_zero (n : ℕ) : meanSq (List.replicate n 0) = 0 := by
  simp [meanSq, List.map_replicate, List.sum_replicate]

lemma diffPower_self (v : List ℚ) : diffPower v v = 0 := by
  rw [diffPower, zipWith_sub_self, meanSq_replicate_zero]

lemma meanSq_nonneg (xs : List ℚ) : 0 ≤ meanSq xs := by
  apply div_nonneg
  · apply List.sum_nonneg
    intro x hx
    obtain ⟨y, _, rfl⟩ := List.mem_map.mp hx
    exact mul_self_nonneg y
  · exact_mod_cast Nat.zero_le _

lemma drumsPower_pos (d : List ℚ) : 0 < drumsPower d := by
  have h := meanSq_nonneg d
  unfold drumsPower
  positivity

/-! ## Claim about the SNR computation -/

/-- Claim C7: when the vocals and drums stems are numerically identical, the
difference power is `0` and the SNR is reported as positive infinity; and
whenever the computation takes the finite branch, the argument handed to
`math.log10` is strictly positive, so no divide-by-zero or math-domain
fault can occur for any stem values. -/
theorem snr_identical_stems_posInf (log10 : ℚ → ℚ) (vocals drums : List ℚ) :
    (vocals = drums →
      diffPower vocals drums = 0 ∧ snr log10 vocals drums = .posInf) ∧
    (∀ x, snr log10 vocals drums = .db x →
      0 < drumsPower drums / diffPower vocals drums) := by
  constructor
  · rintro rfl
    exact ⟨diffPower_self _, by simp [snr, diffPower_self]⟩
  · intro x hx
    by_cases h : 0 < diffPower vocals drums
    · exact div_pos (drumsPower_pos _) h
    · simp [snr, h] at hx

/-- Witness for C7 at the concrete identical stems `[1, 2]`. -/
theorem snr_identical_stems_posInf_witness :
    diffPower [1, 2] [1, 2] = 0 ∧
    snr (fun _ => 0) [1, 2] [1, 2] = .posInf :=
  ⟨((snr_identical_stems_posInf (fun _ => 0) [1, 2] [1, 2]).1 rfl).1,
   ((snr_identical_stems_posInf (fun _ => 0) [1, 2] [1, 2]).1 rfl).2⟩

/-! ## Claims about the tempo analyzer -/

/-- Claim C9: for every successful analysis, the `beat_times` field is the
list of the first 20 detected beat times (hence at most 20 entries), while
`beat_count` is the full number of detected beats; when more than 20 beats
were detected, `beat_count` strictly exceeds the length of `beat_times`. -/
theorem beat_times_truncated_to_20 (round2 : ℚ → ℚ) (d : LibrosaData) :
    (analyze_tempo round2 (.ok d)).beatTimesField
      = some (d.beatTimes.take 20) ∧
    (d.beatTimes.take 20).length ≤ 20 ∧
    (analyze_tempo round2 (.ok d)).beatCountField
      = some d.beatTimes.length ∧
    (20 < d.beatTimes.length →
      (d.beatTimes.take 20).length < d.beatTimes.length) := by
  refine ⟨rfl, ?_, rfl, ?_⟩
  · simp only [List.length_take]
    omega
  · intro h
    simp only [List.length_take]
    omega

/-- Concrete librosa outcome with 21 detected beats, for the C9 witness. -/
def libData21 : LibrosaData :=
  ⟨120, List.replicate 21 1, [], 0, 0, 10, 0⟩

/-- Witness for C9 at `libData21`: 21 beats were detected, so `beat_count`
exceeds the truncated `beat_times` length. -/
theorem beat_times_truncated_to_20_witness :
    20 < libData21.beatTimes.length ∧
    (libData21.beatTimes.take 20).length < libData21.beatTimes.length :=
  ⟨by decide,
   (beat_times_truncated_to_20 (fun x => x) libData21).2.2.2 (by decide)⟩

/-- Claim C10: `analyze_tempo` never propagates an exception: for every
oracle outcome of the librosa calls it returns a dictionary, either with
`success = True` and no error field, or with `success = False` together
with an error string describing the internal failure. -/
theorem analyze_tempo_total (round2 : ℚ → ℚ)
    (data : Except String LibrosaData) :
    ((analyze_tempo round2 data).success = true ∧
      (analyze_tempo round2 data).errMsg = none) ∨
    ((analyze_tempo round2 data).success = false ∧
      ∃ e, (analyze_tempo round2 data).errMsg = some e) := by
  cases data with
  | ok d => exact Or.inl ⟨rfl, rfl⟩
  | error e => exact Or.inr ⟨rfl, e, rfl⟩

end OpenArms
